import Mathlib

/-!
Shallow embedding of the core of the RAG repository: the resilient
Snowflake client (`src/python/snowflake_client.py`) and the
retrieval-then-generation pipeline (`src/python/retrieval.py`).

Modelling conventions:
* Remote calls are oracles: each attempt of the retry loops receives its
  outcome from a function `Nat → ...Outcome` indexed by the 0-based
  attempt number; the pipeline stages receive the outcome of the one
  `execute_query` call they perform.
* `time.sleep` is recorded in a `sleeps : List ℤ` trace instead of
  actually sleeping; exceptions become `Except.error msg` carrying the
  stringified message, which is all the source ever inspects.
* Python dicts are association lists; lookup takes the last binding of a
  key, matching dict-comprehension overwrite semantics.
* `json.dumps`/`json.loads` of the Snowflake VARIANT column is abstracted:
  the `SEARCH_RESULTS` cell holds the already-decoded structure (`none`
  stands for SQL NULL, a missing key, or a falsy/undecodable value — all
  of which the source routes to the same `return []` branches).
-/

namespace RAG

/-- Character-list prefix test: does `hay` start with `pat`?  Building
block for Python's `pat in hay` substring operator. -/
def startsWithChars : List Char → List Char → Bool
  | _, [] => true
  | [], _ :: _ => false
  | a :: as, b :: bs => a == b && startsWithChars as bs

/-- Character-list substring test, modelling Python's `pat in hay`. -/
def containsChars : List Char → List Char → Bool
  | [], pat => pat.isEmpty
  | a :: as, pat => startsWithChars (a :: as) pat || containsChars as pat

/-- Python's `pat in hay` on strings. -/
def strContains (hay pat : String) : Bool :=
  containsChars hay.data pat.data

/-- Python's `str.lower()` (ASCII-faithful), written over the character
list so that it evaluates by kernel reduction. -/
def strLower (s : String) : String :=
  String.mk (s.data.map Char.toLower)

/-- Python's `str.upper()` (ASCII-faithful), written over the character
list so that it evaluates by kernel reduction. -/
def strUpper (s : String) : String :=
  String.mk (s.data.map Char.toUpper)

/-- `RetryConfig` from `config.py`, whose fields are declared `int`
(defaults: 3 attempts, factor 2, delay 1), so delays are integers and
`initial_delay * backoff_factor ^ i` is exact. -/
structure RetryPolicy where
  max_attempts : Nat
  backoff_factor : ℤ
  initial_delay : ℤ

/-- The fixed keyword list of `SnowflakeClient._is_retryable_error`. -/
def retryablePatterns : List String :=
  ["timeout", "connection", "network", "unavailable", "reset", "broken pipe"]

namespace SnowflakeClient

/-- `SnowflakeClient._is_retryable_error`: lowercase the stringified
error and test whether any fixed pattern occurs as a substring. -/
def is_retryable_error (msg : String) : Bool :=
  let error_msg := strLower msg
  retryablePatterns.any (fun p => strContains error_msg p)

/-- Outcome of one body iteration of the `execute_query` retry loop
(connect + cursor + execute + fetch), supplied by the remote-service
oracle: either the fetched rows or a raised `snowflake.connector.Error`
with the given message. -/
inductive AttemptOutcome (ρ : Type) where
  | success (rows : List ρ)
  | failure (msg : String)

/-- Observable behaviour of one `execute_query` call: the returned value
or raised error, the number of attempts made, and the trace of
`time.sleep` durations in order. -/
structure ExecTrace (ρ : Type) where
  result : Except String (Option (List ρ))
  attemptsMade : Nat
  sleeps : List ℤ

/-- The `for attempt in range(max_attempts)` loop of
`SnowflakeClient.execute_query`, starting at attempt index `attempt`
with `remaining` iterations left.  On success: return rows when `fetch`,
else `None`.  On failure: if retryable and attempts remain, sleep
`initial_delay * backoff_factor ^ attempt` and continue; otherwise
re-raise.  Falling off the loop (only possible when `max_attempts = 0`)
returns `None`, as in Python. -/
def executeQueryFrom {ρ : Type} (rc : RetryPolicy) (fetch : Bool)
    (outcome : Nat → AttemptOutcome ρ) : Nat → Nat → ExecTrace ρ
  | _, 0 => ⟨Except.ok none, 0, []⟩
  | attempt, remaining + 1 =>
    match outcome attempt with
    | .success rows => ⟨Except.ok (if fetch then some rows else none), 1, []⟩
    | .failure msg =>
      if is_retryable_error msg then
        if 0 < remaining then
          let rest := executeQueryFrom rc fetch outcome (attempt + 1) remaining
          ⟨rest.result, rest.attemptsMade + 1,
            rc.initial_delay * rc.backoff_factor ^ attempt :: rest.sleeps⟩
        else ⟨Except.error msg, 1, []⟩
      else ⟨Except.error msg, 1, []⟩

/-- `SnowflakeClient.execute_query`. -/
def execute_query {ρ : Type} (rc : RetryPolicy) (fetch : Bool)
    (outcome : Nat → AttemptOutcome ρ) : ExecTrace ρ :=
  executeQueryFrom rc fetch outcome 0 rc.max_attempts

/-- Outcome of one `snowflake.connector.connect(...)` attempt. -/
inductive ConnOutcome where
  | ok
  | fail (msg : String)

/-- Observable behaviour of one `connect` call: `some ()` for a live
connection, `none` for Python's implicit `None` fall-through (only when
`max_attempts = 0`), or the re-raised last connector error. -/
structure ConnectTrace where
  result : Except String (Option Unit)
  attemptsMade : Nat
  sleeps : List ℤ

/-- The `for attempt in range(max_attempts)` loop of
`SnowflakeClient.connect`: every failure sleeps
`initial_delay * backoff_factor ^ attempt` if attempts remain, and the
last failure is re-raised. -/
def connectFrom (rc : RetryPolicy) (outcome : Nat → ConnOutcome) :
    Nat → Nat → ConnectTrace
  | _, 0 => ⟨Except.ok none, 0, []⟩
  | attempt, remaining + 1 =>
    match outcome attempt with
    | .ok => ⟨Except.ok (some ()), 1, []⟩
    | .fail msg =>
      if 0 < remaining then
        let rest := connectFrom rc outcome (attempt + 1) remaining
        ⟨rest.result, rest.attemptsMade + 1,
          rc.initial_delay * rc.backoff_factor ^ attempt :: rest.sleeps⟩
      else ⟨Except.error msg, 1, []⟩

/-- State of `self._connection` on entry to `connect`: absent, alive
(the `SELECT 1` probe succeeds), or dead (the probe raises). -/
inductive ExistingConn where
  | absent
  | alive
  | dead

/-- `SnowflakeClient.connect`: an alive existing connection is returned
at once; otherwise (absent or dead) the retry loop runs from scratch. -/
def connect (rc : RetryPolicy) (existing : ExistingConn)
    (outcome : Nat → ConnOutcome) : ConnectTrace :=
  match existing with
  | .alive => ⟨Except.ok (some ()), 0, []⟩
  | _ => connectFrom rc outcome 0 rc.max_attempts

end SnowflakeClient

/-- A value stored in one field of a search-result record: the four
requested columns hold strings (`CHUNK_TEXT`, `DOCUMENT_ID`, `FILENAME`)
and an integer (`CHUNK_INDEX`). -/
inductive FieldVal where
  | fstr (s : String)
  | fint (n : Int)
deriving DecidableEq

/-- How a `FieldVal` renders inside an f-string (`str()` of the value). -/
def FieldVal.render : FieldVal → String
  | .fstr s => s
  | .fint n => toString n

/-- A search-result record: a Python dict as an association list. -/
abbrev Record := List (String × FieldVal)

/-- Python dict lookup on an association list: the last binding of a key
wins (dict-comprehension overwrite semantics); `none` when absent. -/
def pyLookup {α : Type} (r : List (String × α)) (k : String) : Option α :=
  (r.reverse.find? (fun kv => kv.1 == k)).map (fun kv => kv.2)

/-- The decoded `SEARCH_PREVIEW` response object; `results` is `none`
when the object has no `results` key (`search_data.get('results', [])`
then yields `[]`). -/
structure SearchData where
  results : Option (List Record)
deriving DecidableEq

/-- The single row returned by the search query: its `SEARCH_RESULTS`
cell holds the decoded response, or `none` for NULL/falsy/undecodable. -/
abbrev SearchRow := List (String × Option SearchData)

/-- A row returned by the generation query: the `ANSWER` cell is text. -/
abbrev GenRow := List (String × String)

/-- What one `self.client.execute_query(...)` call did, as seen by the
pipeline: raised with a message, or returned Python's
`Optional[List[Dict]]` (`none` = `None`). -/
inductive ExecOutcome (ρ : Type) where
  | raised (msg : String)
  | returned (rows : Option (List ρ))

/-- `{k.upper(): v for k, v in r.items()}` — canonicalize record keys to
upper case, keeping entry order. -/
def normalizeRecord (r : Record) : Record :=
  r.map (fun kv => (strUpper kv.1, kv.2))

/-- `RetrievalConfig`/`GenerationConfig` slice the pipeline reads; only
`top_k` is observable in the embedded behaviour (`model`, `max_tokens`,
`temperature` are passed opaquely to the remote generation call, which
the outcome oracle abstracts). -/
structure RAGConfig where
  top_k : Nat

/-- The fixed no-evidence answer of `RAGPipeline.answer_question`. -/
def noInfoMessage : String :=
  "I don\x27t have enough information to answer this question. Please upload relevant documents first."

/-- The fixed fallback of `RAGPipeline._generate_answer`, returned both
on a raised error and on a missing `ANSWER` column. -/
def genFallback : String :=
  "I encountered an error while generating the answer. Please try again."

/-- The system-instruction block of `RAGPipeline._construct_prompt`,
transcribed verbatim. -/
def systemInstruction : String :=
  "You are a helpful assistant that answers questions based on the provided context.\n\nIMPORTANT RULES:\n1. Provide COMPREHENSIVE answers using ALL relevant information from the context\n2. Structure your answer with clear paragraphs and bullet points\n3. Use simple, readable formatting - NO JSON, NO code blocks\n4. Always cite sources at the end like: (Source: filename, Chunk #number)\n5. If the context doesn\x27t contain enough information, say \"I don\x27t have enough information to answer this question\"\n6. Do NOT make up information that isn\x27t in the context\n7. Be thorough and detailed\n\nFORMATTING:\n- Write in clear, natural language\n- Use bullet points for lists\n- Keep it readable and well-organized\n- Add citations at the end of relevant points"

/-- `answer_question`'s returned dictionary, flattened: `metadata` keys
become fields, and `top_k : Option Nat` is `none` when the metadata dict
omits the `top_k` key. -/
structure AnswerResult where
  answer : String
  context : List Record
  chunks_retrieved : Nat
  search_method : String
  top_k : Option Nat
deriving DecidableEq

/-- Observable behaviour of one `answer_question` call: the returned
dictionary or the raised error, whether `_generate_answer` was invoked
(the recording-collaborator view), and the prompt built, if any. -/
structure AnswerTrace where
  result : Except String AnswerResult
  generationInvoked : Bool
  prompt : Option String

namespace RAGPipeline

/-- `RAGPipeline._search` from the point the query result is available:
a raised exception (any) is absorbed into `[]`; a present, truthy
`SEARCH_RESULTS` cell is decoded, its `results` list (default `[]`) is
key-normalized and returned; every other shape yields `[]`. -/
def search (outcome : ExecOutcome SearchRow) : List Record :=
  match outcome with
  | .raised _ => []
  | .returned rows =>
    match rows with
    | some (r0 :: _) =>
      match pyLookup r0 "SEARCH_RESULTS" with
      | some (some d) => (d.results.getD []).map normalizeRecord
      | _ => []
    | _ => []

/-- One iteration of `_construct_prompt`'s context loop: the f-string
`[Document: {FILENAME}, Chunk {CHUNK_INDEX}]\n{CHUNK_TEXT}\n`; a missing
key raises `KeyError`, modelled as `Except.error` carrying the key, in
the source's left-to-right evaluation order. -/
def format_chunk (result : Record) : Except String String :=
  match pyLookup result "FILENAME" with
  | none => Except.error "FILENAME"
  | some fn =>
    match pyLookup result "CHUNK_INDEX" with
    | none => Except.error "CHUNK_INDEX"
    | some idx =>
      match pyLookup result "CHUNK_TEXT" with
      | none => Except.error "CHUNK_TEXT"
      | some txt =>
        Except.ok ("[Document: " ++ fn.render ++ ", Chunk " ++ idx.render ++ "]\n"
          ++ txt.render ++ "\n")

/-- The `context_parts` accumulation loop of `_construct_prompt`: formats
records in list order, propagating the first `KeyError`. -/
def build_context_parts : List Record → Except String (List String)
  | [] => Except.ok []
  | r :: rs =>
    match format_chunk r with
    | .error e => Except.error e
    | .ok s =>
      match build_context_parts rs with
      | .error e => Except.error e
      | .ok ss => Except.ok (s :: ss)

/-- `RAGPipeline._construct_prompt`: system instruction, the parts joined
with `\n---\n`, the question, and the answer cue, in the source's
f-string layout. -/
def construct_prompt (question : String) (search_results : List Record) :
    Except String String :=
  match build_context_parts search_results with
  | .error e => Except.error e
  | .ok parts =>
    Except.ok (systemInstruction ++ "\n\nCONTEXT:\n"
      ++ String.intercalate "\n---\n" parts
      ++ "\n\nQUESTION:\n" ++ question ++ "\n\nANSWER:")

/-- `RAGPipeline._generate_answer` from the point the query result is
available: a raised exception, a `None`/empty result, or a missing
`ANSWER` column all yield the fixed fallback; otherwise the cell text is
returned. -/
def generate_answer (outcome : ExecOutcome GenRow) : String :=
  match outcome with
  | .raised _ => genFallback
  | .returned rows =>
    match rows with
    | some (r0 :: _) =>
      match pyLookup r0 "ANSWER" with
      | some a => a
      | none => genFallback
    | _ => genFallback

/-- `RAGPipeline.answer_question`: search; on no results short-circuit
with the fixed message (note: that branch's metadata has no `top_k`
key); otherwise build the prompt (outside any handler — a `KeyError`
propagates) and generate. -/
def answer_question (cfg : RAGConfig) (question : String)
    (searchOutcome : ExecOutcome SearchRow) (genOutcome : ExecOutcome GenRow) :
    AnswerTrace :=
  let search_results := search searchOutcome
  match search_results with
  | [] =>
    { result := Except.ok
        { answer := noInfoMessage, context := [], chunks_retrieved := 0,
          search_method := "cortex_search_service", top_k := none },
      generationInvoked := false, prompt := none }
  | _ :: _ =>
    match construct_prompt question search_results with
    | .error e =>
      { result := Except.error e, generationInvoked := false, prompt := none }
    | .ok p =>
      { result := Except.ok
          { answer := generate_answer genOutcome, context := search_results,
            chunks_retrieved := search_results.length,
            search_method := "cortex_search_service", top_k := some cfg.top_k },
        generationInvoked := true, prompt := some p }

end RAGPipeline

/-- The string `_construct_prompt` produces once `context_parts` is
known: used to state what the built prompt looks like. -/
def renderedPrompt (question : String) (parts : List String) : String :=
  systemInstruction ++ "\n\nCONTEXT:\n" ++ String.intercalate "\n---\n" parts
    ++ "\n\nQUESTION:\n" ++ question ++ "\n\nANSWER:"

/-- Did this call raise (propagate an exception) rather than return? -/
def exceptRaised {ε α : Type} : Except ε α → Bool
  | .error _ => true
  | .ok _ => false

/-! Concrete data used by witnesses: the default configuration
(`top_k = 5`, three attempts, factor 2, delay 1) and a two-chunk search
response from `notes.txt`. -/

/-- Default retrieval configuration (`RetrievalConfig.top_k = 5`). -/
def cfgEx : RAGConfig := ⟨5⟩

/-- Default retry configuration (3 attempts, factor 2, delay 1). -/
def rcEx : RetryPolicy := ⟨3, 2, 1⟩

/-- First example chunk record. -/
def recA : Record :=
  [("FILENAME", .fstr "notes.txt"), ("CHUNK_INDEX", .fint 0),
   ("CHUNK_TEXT", .fstr "alpha"), ("DOCUMENT_ID", .fstr "doc1")]

/-- Second example chunk record. -/
def recB : Record :=
  [("FILENAME", .fstr "notes.txt"), ("CHUNK_INDEX", .fint 1),
   ("CHUNK_TEXT", .fstr "beta"), ("DOCUMENT_ID", .fstr "doc1")]

/-- Example search outcome: one row whose `SEARCH_RESULTS` cell decodes
to the two chunks above. -/
def soEx : ExecOutcome SearchRow :=
  ExecOutcome.returned (some [[("SEARCH_RESULTS", some ⟨some [recA, recB]⟩)]])

/-- The context parts the two chunks render to. -/
def partsEx : List String :=
  ["[Document: notes.txt, Chunk 0]\nalpha\n",
   "[Document: notes.txt, Chunk 1]\nbeta\n"]

/-- A record lacking the `CHUNK_INDEX` key. -/
def recBad : Record :=
  [("FILENAME", .fstr "notes.txt"), ("CHUNK_TEXT", .fstr "gamma")]

/-- Example search outcome whose single record lacks `CHUNK_INDEX`. -/
def soBad : ExecOutcome SearchRow :=
  ExecOutcome.returned (some [[("SEARCH_RESULTS", some ⟨some [recBad]⟩)]])

/-! Helper lemmas. -/

/-- The `execute_query` loop under an oracle whose every attempt fails
with a retryable message: starting at `attempt` with `r + 1` iterations
left, it makes all `r + 1` attempts, re-raises the last message, and
sleeps `initial_delay * backoff_factor ^ (attempt + i)` before retry
`i`. -/
theorem executeQueryFrom_all_retryable {ρ : Type} (rc : RetryPolicy) (fetch : Bool)
    (msgs : Nat → String) (hr : ∀ i, SnowflakeClient.is_retryable_error (msgs i) = true) :
    ∀ r attempt,
      SnowflakeClient.executeQueryFrom rc fetch
          (fun i => SnowflakeClient.AttemptOutcome.failure (ρ := ρ) (msgs i)) attempt (r + 1) =
        ⟨Except.error (msgs (attempt + r)), r + 1,
          (List.range r).map (fun i => rc.initial_delay * rc.backoff_factor ^ (attempt + i))⟩ := by
  intro r
  induction r with
  | zero =>
    intro attempt
    simp [SnowflakeClient.executeQueryFrom, hr attempt]
  | succ n ih =>
    intro attempt
    rw [SnowflakeClient.executeQueryFrom]
    simp only [hr attempt, if_true, Nat.zero_lt_succ, ih (attempt + 1)]
    have hmsg : attempt + 1 + n = attempt + (n + 1) := by omega
    rw [hmsg]
    refine congrArg (SnowflakeClient.ExecTrace.mk _ _) ?_
    rw [List.range_succ_eq_map, List.map_cons, List.map_map]
    refine congrArg₂ (· :: ·) (by rw [Nat.add_zero]) ?_
    refine List.map_congr_left ?_
    intro a _
    have : attempt + 1 + a = attempt + a.succ := by omega
    simp [Function.comp, this]

/-- When the search step yields no records, `answer_question`
short-circuits: fixed message, empty context, zero chunks, metadata
without a `top_k` key, generation not invoked, no prompt built. -/
theorem answer_question_empty_eq (cfg : RAGConfig) (q : String)
    (so : ExecOutcome SearchRow) (g : ExecOutcome GenRow)
    (h : RAGPipeline.search so = []) :
    RAGPipeline.answer_question cfg q so g =
      ⟨Except.ok ⟨noInfoMessage, [], 0, "cortex_search_service", none⟩, false, none⟩ := by
  simp [RAGPipeline.answer_question, h]

/-- When the search step yields records and every record formats, the
full trace of `answer_question`: generated (or fallback) text, the
search results verbatim, their count, `top_k` present, generation
invoked, and the prompt built from the parts in order. -/
theorem answer_question_nonempty_eq (cfg : RAGConfig) (q : String)
    (so : ExecOutcome SearchRow) (g : ExecOutcome GenRow) (parts : List String)
    (hne : RAGPipeline.search so ≠ [])
    (hp : RAGPipeline.build_context_parts (RAGPipeline.search so) = Except.ok parts) :
    RAGPipeline.answer_question cfg q so g =
      ⟨Except.ok ⟨RAGPipeline.generate_answer g, RAGPipeline.search so,
          (RAGPipeline.search so).length, "cortex_search_service", some cfg.top_k⟩,
        true, some (renderedPrompt q parts)⟩ := by
  obtain ⟨a, l, hsr⟩ : ∃ a l, RAGPipeline.search so = a :: l := by
    cases hs : RAGPipeline.search so with
    | nil => exact absurd hs hne
    | cons a l => exact ⟨a, l, rfl⟩
  rw [hsr] at hp
  simp [RAGPipeline.answer_question, hsr, RAGPipeline.construct_prompt, hp, renderedPrompt]

/-- When the search step yields records but some record fails to format,
`answer_question` re-raises the `KeyError` and neither invokes
generation nor returns a result. -/
theorem answer_question_error_eq (cfg : RAGConfig) (q : String)
    (so : ExecOutcome SearchRow) (g : ExecOutcome GenRow) (e : String)
    (hne : RAGPipeline.search so ≠ [])
    (hp : RAGPipeline.build_context_parts (RAGPipeline.search so) = Except.error e) :
    RAGPipeline.answer_question cfg q so g = ⟨Except.error e, false, none⟩ := by
  obtain ⟨a, l, hsr⟩ : ∃ a l, RAGPipeline.search so = a :: l := by
    cases hs : RAGPipeline.search so with
    | nil => exact absurd hs hne
    | cons a l => exact ⟨a, l, rfl⟩
  rw [hsr] at hp
  simp [RAGPipeline.answer_question, hsr, RAGPipeline.construct_prompt, hp]

/-- Successful context building yields one part per record. -/
theorem build_context_parts_ok_length :
    ∀ {rs : List Record} {parts : List String},
      RAGPipeline.build_context_parts rs = Except.ok parts → parts.length = rs.length := by
  intro rs
  induction rs with
  | nil =>
    intro parts h
    simp [RAGPipeline.build_context_parts] at h
    simp [h]
  | cons a l ih =>
    intro parts h
    rw [RAGPipeline.build_context_parts] at h
    cases hfc : RAGPipeline.format_chunk a with
    | error e => rw [hfc] at h; cases h
    | ok s =>
      rw [hfc] at h
      cases hbp : RAGPipeline.build_context_parts l with
      | error e => rw [hbp] at h; cases h
      | ok ss =>
        rw [hbp] at h
        cases h
        simp [ih hbp]

/-- Successful context building formats the records positionally: the
`i`-th part is the formatting of the `i`-th record. -/
theorem build_context_parts_ok_get :
    ∀ {rs : List Record} {parts : List String},
      RAGPipeline.build_context_parts rs = Except.ok parts →
      ∀ i (hi : i < rs.length) (hip : i < parts.length),
        RAGPipeline.format_chunk (rs.get ⟨i, hi⟩) = Except.ok (parts.get ⟨i, hip⟩) := by
  intro rs
  induction rs with
  | nil =>
    intro parts _ i hi
    exact absurd hi (by simp)
  | cons a l ih =>
    intro parts h i hi hip
    rw [RAGPipeline.build_context_parts] at h
    cases hfc : RAGPipeline.format_chunk a with
    | error e => rw [hfc] at h; cases h
    | ok s =>
      rw [hfc] at h
      cases hbp : RAGPipeline.build_context_parts l with
      | error e => rw [hbp] at h; cases h
      | ok ss =>
        rw [hbp] at h
        cases h
        cases i with
        | zero => simpa using hfc
        | succ j => exact ih hbp j (by simpa using hi) (by simpa using hip)

/-- If some record in the list fails to format, context building fails
(with the first failing record's error). -/
theorem build_context_parts_error_of_mem {rs : List Record} {r : Record} {e : String}
    (hmem : r ∈ rs) (he : RAGPipeline.format_chunk r = Except.error e) :
    ∃ e2, RAGPipeline.build_context_parts rs = Except.error e2 := by
  induction rs with
  | nil => cases hmem
  | cons a l ih =>
    rcases List.mem_cons.mp hmem with rfl | hmem2
    · exact ⟨e, by simp [RAGPipeline.build_context_parts, he]⟩
    · cases hfc : RAGPipeline.format_chunk a with
      | error e3 => exact ⟨e3, by simp [RAGPipeline.build_context_parts, hfc]⟩
      | ok s =>
        obtain ⟨e2, he2⟩ := ih hmem2
        exact ⟨e2, by simp [RAGPipeline.build_context_parts, hfc, he2]⟩

/-- A record missing one of the three prompt keys fails to format with a
`KeyError` (for the first missing key encountered). -/
theorem format_chunk_error_of_missing {r : Record} {key : String}
    (hkey : key = "FILENAME" ∨ key = "CHUNK_INDEX" ∨ key = "CHUNK_TEXT")
    (hmiss : pyLookup r key = none) :
    ∃ e, RAGPipeline.format_chunk r = Except.error e := by
  rcases hkey with rfl | rfl | rfl
  · exact ⟨"FILENAME", by simp [RAGPipeline.format_chunk, hmiss]⟩
  · cases h1 : pyLookup r "FILENAME" with
    | none => exact ⟨"FILENAME", by simp [RAGPipeline.format_chunk, h1]⟩
    | some fn => exact ⟨"CHUNK_INDEX", by simp [RAGPipeline.format_chunk, h1, hmiss]⟩
  · cases h1 : pyLookup r "FILENAME" with
    | none => exact ⟨"FILENAME", by simp [RAGPipeline.format_chunk, h1]⟩
    | some fn =>
      cases h2 : pyLookup r "CHUNK_INDEX" with
      | none => exact ⟨"CHUNK_INDEX", by simp [RAGPipeline.format_chunk, h1, h2]⟩
      | some idx => exact ⟨"CHUNK_TEXT", by simp [RAGPipeline.format_chunk, h1, h2, hmiss]⟩

/-! Claims. -/

/-- C1 (counterexample): at a concrete empty-search input,
`answer_question` returns the short-circuit result whose metadata has no
`top_k` key at all (`top_k = none`), so the claim that the returned
`topK` equals the configured `top_k` (= 5 here) is false. -/
theorem C1_counterexample :
    (RAGPipeline.answer_question cfgEx "q" (ExecOutcome.returned (some []))
        (ExecOutcome.raised "boom")).result =
      Except.ok ⟨noInfoMessage, [], 0, "cortex_search_service", none⟩ ∧
    (none : Option Nat) ≠ some cfgEx.top_k :=
  ⟨rfl, by decide⟩

/-- C1 (amended): if the search step returns an empty sequence,
`answer_question` short-circuits with the fixed "not enough information"
message, empty context, `chunks_retrieved = 0`, and metadata that omits
the `top_k` key (the `top_k` entry exists only on the non-empty path);
the generation operation is never invoked and no prompt is built. -/
theorem C1_no_results_short_circuit (cfg : RAGConfig) (q : String)
    (so : ExecOutcome SearchRow) (g : ExecOutcome GenRow)
    (h : RAGPipeline.search so = []) :
    RAGPipeline.answer_question cfg q so g =
      ⟨Except.ok ⟨noInfoMessage, [], 0, "cortex_search_service", none⟩, false, none⟩ :=
  answer_question_empty_eq cfg q so g h

/-- C1 witness: the amended short-circuit at a concrete empty response. -/
theorem C1_no_results_short_circuit_witness :
    RAGPipeline.answer_question cfgEx "q" (ExecOutcome.returned (some []))
        (ExecOutcome.raised "boom") =
      ⟨Except.ok ⟨noInfoMessage, [], 0, "cortex_search_service", none⟩, false, none⟩ :=
  C1_no_results_short_circuit cfgEx "q" (ExecOutcome.returned (some []))
    (ExecOutcome.raised "boom") rfl

/-- C2 (counterexample): `"invalid identifier 'FOO'"` is classified
non-retryable (fatal), yet when `execute_query` raises it during the
search step, `answer_question` absorbs it and returns a normal
no-evidence result instead of propagating a typed error. -/
theorem C2_counterexample :
    SnowflakeClient.is_retryable_error "invalid identifier \x27FOO\x27" = false ∧
    (RAGPipeline.answer_question cfgEx "q"
        (ExecOutcome.raised "invalid identifier \x27FOO\x27")
        (ExecOutcome.raised "invalid identifier \x27FOO\x27")).result =
      Except.ok ⟨noInfoMessage, [], 0, "cortex_search_service", none⟩ :=
  ⟨by decide, rfl⟩

/-- C2 (amended): failures raised during the search step — including
query-execution failures classified fatal — are absorbed into empty
evidence, and failures raised during the generation step are absorbed
into the fallback text; neither propagates to the caller of
`answer_question`.  (Classification decides only whether
`execute_query` retries internally before raising.) -/
theorem C2_failures_absorbed (cfg : RAGConfig) (q msg gmsg : String)
    (g : ExecOutcome GenRow) (so : ExecOutcome SearchRow) (parts : List String)
    (hfatal : SnowflakeClient.is_retryable_error msg = false)
    (hne : RAGPipeline.search so ≠ [])
    (hp : RAGPipeline.build_context_parts (RAGPipeline.search so) = Except.ok parts) :
    RAGPipeline.answer_question cfg q (ExecOutcome.raised msg) g =
      ⟨Except.ok ⟨noInfoMessage, [], 0, "cortex_search_service", none⟩, false, none⟩ ∧
    (RAGPipeline.answer_question cfg q so (ExecOutcome.raised gmsg)).result =
      Except.ok ⟨genFallback, RAGPipeline.search so, (RAGPipeline.search so).length,
        "cortex_search_service", some cfg.top_k⟩ := by
  refine ⟨answer_question_empty_eq cfg q _ g rfl, ?_⟩
  rw [answer_question_nonempty_eq cfg q so (ExecOutcome.raised gmsg) parts hne hp]
  rfl

/-- C2 witness: a fatal search failure and a raised generation failure,
both absorbed, at concrete inputs. -/
theorem C2_failures_absorbed_witness :
    RAGPipeline.answer_question cfgEx "q" (ExecOutcome.raised "invalid identifier \x27FOO\x27")
        (ExecOutcome.raised "g") =
      ⟨Except.ok ⟨noInfoMessage, [], 0, "cortex_search_service", none⟩, false, none⟩ ∧
    (RAGPipeline.answer_question cfgEx "q" soEx (ExecOutcome.raised "g")).result =
      Except.ok ⟨genFallback, RAGPipeline.search soEx, (RAGPipeline.search soEx).length,
        "cortex_search_service", some cfgEx.top_k⟩ :=
  C2_failures_absorbed cfgEx "q" "invalid identifier \x27FOO\x27" "g"
    (ExecOutcome.raised "g") soEx partsEx (by decide) (by decide) rfl

/-- C3: when every attempt fails with a retryable message,
`execute_query` makes exactly `max_attempts` attempts, re-raises the
last failure, and the `i`-th delay slept (0-indexed, taken between
attempt `i` and attempt `i+1`) is `initial_delay * backoff_factor ^ i`. -/
theorem C3_retryable_exhaustion {ρ : Type} (rc : RetryPolicy) (fetch : Bool)
    (msgs : Nat → String) (hm : 1 ≤ rc.max_attempts)
    (hr : ∀ i, SnowflakeClient.is_retryable_error (msgs i) = true) :
    (SnowflakeClient.execute_query rc fetch
        (fun i => SnowflakeClient.AttemptOutcome.failure (ρ := ρ) (msgs i))).attemptsMade =
      rc.max_attempts ∧
    (SnowflakeClient.execute_query rc fetch
        (fun i => SnowflakeClient.AttemptOutcome.failure (ρ := ρ) (msgs i))).result =
      Except.error (msgs (rc.max_attempts - 1)) ∧
    (SnowflakeClient.execute_query rc fetch
        (fun i => SnowflakeClient.AttemptOutcome.failure (ρ := ρ) (msgs i))).sleeps =
      (List.range (rc.max_attempts - 1)).map
        (fun i => rc.initial_delay * rc.backoff_factor ^ i) := by
  obtain ⟨r, hm2⟩ : ∃ r, rc.max_attempts = r + 1 := ⟨rc.max_attempts - 1, by omega⟩
  have h := executeQueryFrom_all_retryable (ρ := ρ) rc fetch msgs hr r 0
  unfold SnowflakeClient.execute_query
  rw [hm2, h]
  simp

/-- C3 witness: three retryable "timeout" failures with the default
policy make 3 attempts, sleep 1 then 2 seconds, and re-raise. -/
theorem C3_retryable_exhaustion_witness :
    (SnowflakeClient.execute_query rcEx true
        (fun i => SnowflakeClient.AttemptOutcome.failure (ρ := GenRow)
          ((fun _ => "timeout") i))).attemptsMade = 3 ∧
    (SnowflakeClient.execute_query rcEx true
        (fun i => SnowflakeClient.AttemptOutcome.failure (ρ := GenRow)
          ((fun _ => "timeout") i))).result = Except.error "timeout" ∧
    (SnowflakeClient.execute_query rcEx true
        (fun i => SnowflakeClient.AttemptOutcome.failure (ρ := GenRow)
          ((fun _ => "timeout") i))).sleeps = [1, 2] := by
  have h := C3_retryable_exhaustion (ρ := GenRow) rcEx true (fun _ => "timeout")
    (by decide)
    (fun _ => (by decide : SnowflakeClient.is_retryable_error "timeout" = true))
  refine ⟨h.1, h.2.1, ?_⟩
  rw [h.2.2]
  decide

/-- C4 (counterexample): with the default policy (`d = 1`, `f = 2`,
3 attempts all failing "network unreachable"), the total sleep is
`1 + 2 = 3`, not `d*(1+f+f^2) = 7`: sleeps happen only between
attempts, so 3 attempts produce 2 sleeps. -/
theorem C4_counterexample :
    (SnowflakeClient.connect rcEx .absent
        (fun _ => SnowflakeClient.ConnOutcome.fail "network unreachable")).attemptsMade = 3 ∧
    (SnowflakeClient.connect rcEx .absent
        (fun _ => SnowflakeClient.ConnOutcome.fail "network unreachable")).result =
      Except.error "network unreachable" ∧
    (SnowflakeClient.connect rcEx .absent
        (fun _ => SnowflakeClient.ConnOutcome.fail "network unreachable")).sleeps.sum = 3 ∧
    (SnowflakeClient.connect rcEx .absent
        (fun _ => SnowflakeClient.ConnOutcome.fail "network unreachable")).sleeps.sum ≠
      rcEx.initial_delay * (1 + rcEx.backoff_factor + rcEx.backoff_factor ^ 2) :=
  ⟨rfl, rfl, by decide, by decide⟩

/-- C4 (amended): three consecutive connection failures with
`max_attempts = 3` raise the last connector error after exactly 3
attempts, with total sleep `d * (1 + f)` (two inter-attempt sleeps of
`d` and `d*f`), not `d * (1 + f + f^2)`. -/
theorem C4_three_attempts_total_sleep (d f : ℤ) (msgs : Nat → String) :
    (SnowflakeClient.connect ⟨3, f, d⟩ .absent
        (fun i => SnowflakeClient.ConnOutcome.fail (msgs i))).attemptsMade = 3 ∧
    (SnowflakeClient.connect ⟨3, f, d⟩ .absent
        (fun i => SnowflakeClient.ConnOutcome.fail (msgs i))).result =
      Except.error (msgs 2) ∧
    (SnowflakeClient.connect ⟨3, f, d⟩ .absent
        (fun i => SnowflakeClient.ConnOutcome.fail (msgs i))).sleeps.sum = d * (1 + f) := by
  refine ⟨rfl, rfl, ?_⟩
  have hs : (SnowflakeClient.connect ⟨3, f, d⟩ .absent
      (fun i => SnowflakeClient.ConnOutcome.fail (msgs i))).sleeps = [d * f ^ 0, d * f ^ 1] := rfl
  rw [hs]
  simp [List.sum_cons]
  ring

/-- C5: a first-attempt failure classified non-retryable (fatal) is
raised immediately: exactly one attempt, no sleeps, regardless of
`max_attempts`. -/
theorem C5_fatal_single_attempt {ρ : Type} (rc : RetryPolicy) (fetch : Bool)
    (outcome : Nat → SnowflakeClient.AttemptOutcome ρ) (msg : String)
    (hm : 1 ≤ rc.max_attempts)
    (h0 : outcome 0 = SnowflakeClient.AttemptOutcome.failure msg)
    (hf : SnowflakeClient.is_retryable_error msg = false) :
    SnowflakeClient.execute_query rc fetch outcome = ⟨Except.error msg, 1, []⟩ := by
  obtain ⟨r, hm2⟩ : ∃ r, rc.max_attempts = r + 1 := ⟨rc.max_attempts - 1, by omega⟩
  unfold SnowflakeClient.execute_query
  rw [hm2, SnowflakeClient.executeQueryFrom]
  simp [h0, hf]

/-- C5 witness: an "invalid identifier" failure with the default
3-attempt policy is attempted once and raised at once. -/
theorem C5_fatal_single_attempt_witness :
    SnowflakeClient.execute_query rcEx true
        (fun _ => SnowflakeClient.AttemptOutcome.failure (ρ := GenRow)
          "invalid identifier \x27FOO\x27") =
      ⟨Except.error "invalid identifier \x27FOO\x27", 1, []⟩ :=
  C5_fatal_single_attempt rcEx true
    (fun _ => SnowflakeClient.AttemptOutcome.failure (ρ := GenRow)
      "invalid identifier \x27FOO\x27")
    "invalid identifier \x27FOO\x27" (by decide) rfl (by decide)

/-- C6: `_generate_answer` never propagates a failure — a raised error,
a `None`/empty query result, and a row lacking the `ANSWER` column all
yield the same fixed fallback string — and when generation fails this
way, `answer_question` still returns `chunks_retrieved` equal to the
number of search results. -/
theorem C6_generation_fail_soft (cfg : RAGConfig) (q gmsg : String)
    (row : GenRow) (rest : List GenRow)
    (so : ExecOutcome SearchRow) (parts : List String)
    (hrow : pyLookup row "ANSWER" = none)
    (hne : RAGPipeline.search so ≠ [])
    (hp : RAGPipeline.build_context_parts (RAGPipeline.search so) = Except.ok parts) :
    RAGPipeline.generate_answer (ExecOutcome.raised gmsg) = genFallback ∧
    RAGPipeline.generate_answer (ExecOutcome.returned none) = genFallback ∧
    RAGPipeline.generate_answer (ExecOutcome.returned (some [])) = genFallback ∧
    RAGPipeline.generate_answer (ExecOutcome.returned (some (row :: rest))) = genFallback ∧
    (RAGPipeline.answer_question cfg q so (ExecOutcome.raised gmsg)).result =
      Except.ok ⟨genFallback, RAGPipeline.search so, (RAGPipeline.search so).length,
        "cortex_search_service", some cfg.top_k⟩ := by
  refine ⟨rfl, rfl, rfl, ?_, ?_⟩
  · simp [RAGPipeline.generate_answer, hrow]
  · rw [answer_question_nonempty_eq cfg q so (ExecOutcome.raised gmsg) parts hne hp]
    rfl

/-- C6 witness: concrete generation failures (raised error and a row
without `ANSWER`) fall back, with two chunks still reported. -/
theorem C6_generation_fail_soft_witness :
    RAGPipeline.generate_answer (ExecOutcome.raised "boom") = genFallback ∧
    RAGPipeline.generate_answer (ExecOutcome.returned none) = genFallback ∧
    RAGPipeline.generate_answer (ExecOutcome.returned (some [])) = genFallback ∧
    RAGPipeline.generate_answer (ExecOutcome.returned (some [[("OTHER", "x")]])) = genFallback ∧
    (RAGPipeline.answer_question cfgEx "q" soEx (ExecOutcome.raised "boom")).result =
      Except.ok ⟨genFallback, RAGPipeline.search soEx, (RAGPipeline.search soEx).length,
        "cortex_search_service", some cfgEx.top_k⟩ :=
  C6_generation_fail_soft cfgEx "q" "boom" [("OTHER", "x")] [] soEx partsEx
    (by decide) (by decide) rfl

/-- C7: the classifier is deterministic and case-insensitive — a message
is Retryable iff its lowercasing contains one of the six fixed keywords;
messages with equal lowercasings classify identically; and the two
reference examples classify as the claim states. -/
theorem C7_classifier_characterization :
    (∀ msg : String, SnowflakeClient.is_retryable_error msg = true ↔
      ∃ p ∈ retryablePatterns, strContains (strLower msg) p = true) ∧
    (∀ m1 m2 : String, strLower m1 = strLower m2 →
      SnowflakeClient.is_retryable_error m1 = SnowflakeClient.is_retryable_error m2) ∧
    SnowflakeClient.is_retryable_error "Connection reset by peer" = true ∧
    SnowflakeClient.is_retryable_error "invalid identifier \x27FOO\x27" = false := by
  refine ⟨?_, ?_, by decide, by decide⟩
  · intro msg
    simp [SnowflakeClient.is_retryable_error, List.any_eq_true]
  · intro m1 m2 h
    simp [SnowflakeClient.is_retryable_error, h]

/-- C7 witness: two casings of the same message classify identically. -/
theorem C7_classifier_characterization_witness :
    SnowflakeClient.is_retryable_error "Connection RESET by peer" =
      SnowflakeClient.is_retryable_error "connection reset by PEER" :=
  C7_classifier_characterization.2.1 "Connection RESET by peer" "connection reset by PEER"
    (by decide)

/-- C8: with a non-empty well-formed search result list, the answer's
`context` is the search-result sequence verbatim (same list, same
order), `chunks_retrieved` is its length, and the built prompt renders
the records' parts joined in that same order, the `i`-th part being the
formatting of the `i`-th record. -/
theorem C8_order_preserved (cfg : RAGConfig) (q : String)
    (so : ExecOutcome SearchRow) (g : ExecOutcome GenRow) (parts : List String)
    (hne : RAGPipeline.search so ≠ [])
    (hp : RAGPipeline.build_context_parts (RAGPipeline.search so) = Except.ok parts) :
    RAGPipeline.answer_question cfg q so g =
      ⟨Except.ok ⟨RAGPipeline.generate_answer g, RAGPipeline.search so,
          (RAGPipeline.search so).length, "cortex_search_service", some cfg.top_k⟩,
        true, some (renderedPrompt q parts)⟩ ∧
    parts.length = (RAGPipeline.search so).length ∧
    ∀ i (hi : i < (RAGPipeline.search so).length) (hip : i < parts.length),
      RAGPipeline.format_chunk ((RAGPipeline.search so).get ⟨i, hi⟩) =
        Except.ok (parts.get ⟨i, hip⟩) :=
  ⟨answer_question_nonempty_eq cfg q so g parts hne hp,
   build_context_parts_ok_length hp,
   fun i hi hip => build_context_parts_ok_get hp i hi hip⟩

/-- C8 witness: the two-chunk `notes.txt` scenario — context preserved
in order, `chunks_retrieved = 2`, and each rendered part matches its
record positionally. -/
theorem C8_order_preserved_witness :
    RAGPipeline.answer_question cfgEx "What are the action items?" soEx
        (ExecOutcome.returned (some [[("ANSWER", "Do the things.")]])) =
      ⟨Except.ok ⟨"Do the things.", RAGPipeline.search soEx, (RAGPipeline.search soEx).length,
          "cortex_search_service", some cfgEx.top_k⟩,
        true, some (renderedPrompt "What are the action items?" partsEx)⟩ ∧
    partsEx.length = (RAGPipeline.search soEx).length ∧
    RAGPipeline.format_chunk ((RAGPipeline.search soEx).get ⟨0, by decide⟩) =
      Except.ok (partsEx.get ⟨0, by decide⟩) ∧
    RAGPipeline.format_chunk ((RAGPipeline.search soEx).get ⟨1, by decide⟩) =
      Except.ok (partsEx.get ⟨1, by decide⟩) := by
  have h := C8_order_preserved cfgEx "What are the action items?" soEx
    (ExecOutcome.returned (some [[("ANSWER", "Do the things.")]])) partsEx
    (by decide) rfl
  exact ⟨h.1, h.2.1, h.2.2 0 (by decide) (by decide), h.2.2 1 (by decide) (by decide)⟩

/-- C9: `_construct_prompt` is deterministic — it reads nothing but its
two arguments (in the embedding it is a pure function), so identical
question/results always produce the identical string. -/
theorem C9_prompt_deterministic (q1 q2 : String) (rs1 rs2 : List Record)
    (hq : q1 = q2) (hr : rs1 = rs2) :
    RAGPipeline.construct_prompt q1 rs1 = RAGPipeline.construct_prompt q2 rs2 := by
  rw [hq, hr]

/-- C9 witness: two calls on identical concrete arguments coincide. -/
theorem C9_prompt_deterministic_witness :
    RAGPipeline.construct_prompt "q" [recA, recB] =
      RAGPipeline.construct_prompt "q" [recA, recB] :=
  C9_prompt_deterministic "q" "q" [recA, recB] [recA, recB] rfl rfl

/-- C10: if the (normalized) search results are non-empty and some
record lacks `FILENAME`, `CHUNK_INDEX`, or `CHUNK_TEXT`, then
`answer_question` raises the `KeyError` from prompt construction to its
caller — the result is an error, not an `AnswerResult` — and generation
is never invoked, because `_construct_prompt` runs outside every
error-absorbing handler. -/
theorem C10_missing_key_raises (cfg : RAGConfig) (q : String)
    (so : ExecOutcome SearchRow) (g : ExecOutcome GenRow) (r : Record) (key : String)
    (hmem : r ∈ RAGPipeline.search so)
    (hkey : key = "FILENAME" ∨ key = "CHUNK_INDEX" ∨ key = "CHUNK_TEXT")
    (hmiss : pyLookup r key = none) :
    exceptRaised (RAGPipeline.answer_question cfg q so g).result = true ∧
    (RAGPipeline.answer_question cfg q so g).generationInvoked = false := by
  obtain ⟨e, he⟩ := format_chunk_error_of_missing hkey hmiss
  obtain ⟨e2, he2⟩ := build_context_parts_error_of_mem hmem he
  have hne : RAGPipeline.search so ≠ [] := by
    intro hnil
    rw [hnil] at hmem
    cases hmem
  rw [answer_question_error_eq cfg q so g e2 hne he2]
  exact ⟨rfl, rfl⟩

/-- C10 witness: a concrete response whose single record lacks
`CHUNK_INDEX` makes `answer_question` raise instead of answering. -/
theorem C10_missing_key_raises_witness :
    exceptRaised (RAGPipeline.answer_question cfgEx "q" soBad
        (ExecOutcome.raised "boom")).result = true ∧
    (RAGPipeline.answer_question cfgEx "q" soBad
        (ExecOutcome.raised "boom")).generationInvoked = false :=
  C10_missing_key_raises cfgEx "q" soBad (ExecOutcome.raised "boom") recBad "CHUNK_INDEX"
    (by decide) (Or.inr (Or.inl rfl)) (by decide)

end RAG
